import Mathlib

/-!
Verification development for the grocery matching and quantity-resolution
engine.  The TypeScript sources (volume-parser.ts, grocery-service.ts,
advanced-search-engine.ts, products-loader.ts) are shallowly embedded:
strings become `List Char`, JavaScript numbers become `ℚ`, fallible
operations become `Option`.  Each embedded definition mirrors one source
function and keeps its name.
-/

set_option maxHeartbeats 1000000

/-- Strings are modelled as lists of characters (JavaScript strings). -/
abbrev Str := List Char

/-- Lowercasing of one character as `String.prototype.toLowerCase` does for
the ASCII range plus the German umlauts appearing in this code base. -/
def lowerChar (c : Char) : Char :=
  if c = 'Ä' then 'ä' else if c = 'Ö' then 'ö' else if c = 'Ü' then 'ü' else c.toLower

/-- JavaScript `text.toLowerCase()`. -/
def toLowerStr (s : Str) : Str := s.map lowerChar

/-- JavaScript `text.trim()`: strip whitespace at both ends. -/
def trimWs (s : Str) : Str :=
  ((s.dropWhile Char.isWhitespace).reverse.dropWhile Char.isWhitespace).reverse

/-- JavaScript `haystack.includes(needle)`: `needle` occurs contiguously in
`haystack` (always true for an empty needle). -/
def containsSeg (needle haystack : Str) : Bool :=
  (List.range (haystack.length + 1)).any fun i =>
    (haystack.drop i).take needle.length == needle

/-- JavaScript `text.split(' ')`: split at every single space, keeping empty
fragments, exactly as the string method does. -/
def splitOnSpace : Str → List Str
  | [] => [[]]
  | c :: cs =>
    match splitOnSpace cs with
    | [] => [[c]]
    | w :: ws => if c = ' ' then [] :: w :: ws else (c :: w) :: ws

/-- Numeric value of a (non-empty) run of decimal digit characters. -/
def digitsToNat (ds : Str) : ℕ := ds.foldl (fun a c => a * 10 + (c.toNat - 48)) 0

/-- Value of `parseFloat` applied to `d1 ++ "." ++ d2` (the extractors first
replace a decimal comma by a dot); `d2 = []` means no fractional part. -/
def amountOf (d1 d2 : Str) : ℚ :=
  (digitsToNat d1 : ℚ) + (digitsToNat d2 : ℚ) / (10 : ℚ) ^ d2.length

/-- Regex alternation of literal unit tokens: the first alternative that
matches at the current position wins. -/
def matchUnitAt (units : List Str) (s : Str) : Option Str :=
  units.find? fun u => s.take u.length == u

/-- Unit alternatives of the first pattern, in the source order
`kg|g|ml|l|stück|stuck`. -/
def pat1Units : List Str := ["kg".toList, "g".toList, "ml".toList, "l".toList, "stück".toList, "stuck".toList]

/-- Unit alternatives of the multiplicative pack pattern, `g|ml|l`. -/
def pat2Units : List Str := ["g".toList, "ml".toList, "l".toList]

/-- Unit alternatives of the circa pattern, `g|ml|l|kg`. -/
def pat3Units : List Str := ["g".toList, "ml".toList, "l".toList, "kg".toList]

/-- Unit alternatives of the loosely spaced pattern, `g|ml|l|kg|stück|stuck`. -/
def pat4Units : List Str := ["g".toList, "ml".toList, "l".toList, "kg".toList, "stück".toList, "stuck".toList]

/-- Matcher for the regex `(\d+(?:,\d+)?)\s*(UNITS)` (pattern 1 of
volume-parser.ts) respectively `(\d+(?:,\d+)?)\s+(UNITS)` (pattern 4, with
`needSpace = true`) at one fixed position of the text.  The greedy digit run
cannot backtrack usefully because no unit alternative starts with a digit,
and the optional `,\d+` group backtracks to the empty match when no unit
follows it. -/
def matchAmountUnitAt (units : List Str) (needSpace : Bool) (s : Str) : Option (ℚ × Str) :=
  let d1 := s.takeWhile Char.isDigit
  if d1.isEmpty then none else
  let r1 := s.drop d1.length
  let commaPart : Option (Str × Str) :=
    match r1 with
    | ',' :: rest =>
      let d2 := rest.takeWhile Char.isDigit
      if d2.isEmpty then none else some (d2, rest.drop d2.length)
    | _ => none
  let tryUnit : Str → Option Str := fun r =>
    let sp := r.takeWhile Char.isWhitespace
    if needSpace && sp.isEmpty then none
    else matchUnitAt units (r.drop sp.length)
  match commaPart with
  | some (d2, r2) =>
    match tryUnit r2 with
    | some u => some (amountOf d1 d2, u)
    | none => (tryUnit r1).map fun u => (amountOf d1 [], u)
  | none => (tryUnit r1).map fun u => (amountOf d1 [], u)

/-- Matcher for the regex `(\d+)x(\d+)(g|ml|l)` (pattern 2 of
volume-parser.ts) at one fixed position; the extractor multiplies the two
numbers. -/
def matchMultiPackAt (s : Str) : Option (ℚ × Str) :=
  let d1 := s.takeWhile Char.isDigit
  if d1.isEmpty then none else
  match s.drop d1.length with
  | 'x' :: r2 =>
    let d2 := r2.takeWhile Char.isDigit
    if d2.isEmpty then none else
    (matchUnitAt pat2Units (r2.drop d2.length)).map fun u =>
      ((digitsToNat d1 : ℚ) * (digitsToNat d2 : ℚ), u)
  | _ => none

/-- Matcher for the regex `ca\.\s*(\d+)(g|ml|l|kg)` (pattern 3 of
volume-parser.ts) at one fixed position. -/
def matchCircaAt (s : Str) : Option (ℚ × Str) :=
  match s with
  | 'c' :: 'a' :: '.' :: r1 =>
    let r2 := r1.dropWhile Char.isWhitespace
    let d := r2.takeWhile Char.isDigit
    if d.isEmpty then none else
    (matchUnitAt pat3Units (r2.drop d.length)).map fun u => ((digitsToNat d : ℚ), u)
  | _ => none

/-- Leftmost-match semantics of `String.prototype.match` with a non-global
regex: positions are tried left to right and the first position where the
pattern matches wins. -/
def scanLeftmost (f : Str → Option α) : Str → Option α
  | [] => f []
  | c :: cs =>
    match f (c :: cs) with
    | some r => some r
    | none => scanLeftmost f cs

/-- Embedding of `VolumeParser.normalizeUnit`: folds the known synonyms of
the piece unit to the canonical `stück`, otherwise lowercases. -/
def normalizeUnit (u : Str) : Str :=
  let ul := toLowerStr u
  if ul = "stuck".toList ∨ ul = "stueck".toList ∨ ul = "piece".toList ∨ ul = "pcs".toList
  then "stück".toList else ul

/-- Embedding of `VolumeParser.parseVolume`: lowercase and trim the text,
then try the four extraction patterns in their fixed priority order, each
with leftmost-match semantics, and normalize the unit of the first hit. -/
def parseVolume (text : Str) : Option (ℚ × Str) :=
  let cleanText := trimWs (toLowerStr text)
  let raw :=
    (scanLeftmost (matchAmountUnitAt pat1Units false) cleanText).orElse fun _ =>
    (scanLeftmost matchMultiPackAt cleanText).orElse fun _ =>
    (scanLeftmost matchCircaAt cleanText).orElse fun _ =>
    scanLeftmost (matchAmountUnitAt pat4Units true) cleanText
  raw.map fun au => (au.1, normalizeUnit au.2)

/-- Embedding of `VolumeParser.convertToGrams`: maps `g→1, kg→1000, ml→1,
l→1000`; the piece unit has no conversion. -/
def convertToGrams (amount : ℚ) (unit : Str) : Option ℚ :=
  let ul := toLowerStr unit
  if ul = "g".toList then some (amount * 1)
  else if ul = "kg".toList then some (amount * 1000)
  else if ul = "ml".toList then some (amount * 1)
  else if ul = "l".toList then some (amount * 1000)
  else none

/-- Embedding of `VolumeParser.calculateUnitsNeeded`: ceiling division on
the comparable gram scale when both units convert, ceiling division of the
raw amounts when both units are the piece unit `stück`, otherwise `none`. -/
def calculateUnitsNeeded (neededAmount : ℚ) (neededUnit : Str) (productAmount : ℚ) (productUnit : Str) : Option ℤ :=
  match convertToGrams neededAmount neededUnit, convertToGrams productAmount productUnit with
  | some ng, some pg => some ⌈ng / pg⌉
  | _, _ =>
    if toLowerStr neededUnit = "stück".toList ∧ toLowerStr productUnit = "stück".toList
    then some ⌈neededAmount / productAmount⌉
    else none

/-! Data model of the grocery service (types.ts): catalog products, parsed
shopping items, scored candidates and final matches.  The free-text
`matchReasoning` field is omitted: it is a log string never read back. -/

/-- Catalog entry (interface `Product`). -/
structure Product where
  category : Str
  title : Str
  price : ℚ
  volume : Str
  url : Str
deriving DecidableEq

/-- One normalized shopping-list entry (interface `ShoppingItem`).  The
`itemType` classification is kept as a plain string tag. -/
structure ShoppingItem where
  item : Str
  amount : ℚ
  unit : Str
  originalText : Str
  attributes : List Str
  alternatives : List Str
  itemType : Str
deriving DecidableEq

/-- Scored candidate as passed around by grocery-service.ts
(`{ product; score; tier }`). -/
structure Candidate where
  product : Product
  score : ℚ
  tier : Str
deriving DecidableEq

/-- Final per-item resolution (interface `ProductMatch`). -/
structure ProductMatch where
  product : Product
  unitsNeeded : ℤ
  actualAmount : ℚ
  actualUnit : Str
  totalPrice : ℚ
  confidence : ℚ
  matchTier : Str
deriving DecidableEq

/-- Embedding of `GroceryService.calculateQuantitySimple`.  The source
returns `null` only from its `catch` handler, which no statement of the
body can trigger, so the embedding is total.  Paths, in source order: no
parsable volume or amount 0 → one piece; same unit → direct ceiling
division clamped to 1; otherwise the kg/g and l/ml conversion chain, again
clamped to 1. -/
def calculateQuantitySimple (item : ShoppingItem) (candidate : Candidate) : ProductMatch :=
  let product := candidate.product
  match parseVolume product.volume with
  | none =>
    { product, unitsNeeded := 1, actualAmount := 1, actualUnit := "stück".toList,
      totalPrice := product.price, confidence := candidate.score, matchTier := candidate.tier }
  | some (pa, pu) =>
    if pa = 0 then
      { product, unitsNeeded := 1, actualAmount := 1, actualUnit := "stück".toList,
        totalPrice := product.price, confidence := candidate.score, matchTier := candidate.tier }
    else if item.unit = pu then
      let n : ℤ := max 1 ⌈item.amount / pa⌉
      { product, unitsNeeded := n, actualAmount := (n : ℚ) * pa, actualUnit := pu,
        totalPrice := (n : ℚ) * product.price, confidence := candidate.score,
        matchTier := candidate.tier }
    else
      let conv : ℚ × ℚ :=
        if pu = "kg".toList ∧ item.unit = "g".toList then (pa * 1000, item.amount)
        else if pu = "g".toList ∧ item.unit = "kg".toList then (pa, item.amount * 1000)
        else if pu = "l".toList ∧ item.unit = "ml".toList then (pa * 1000, item.amount)
        else if pu = "ml".toList ∧ item.unit = "l".toList then (pa, item.amount * 1000)
        else (pa, item.amount)
      let n : ℤ := max 1 ⌈conv.2 / conv.1⌉
      let finalUnit :=
        if pu = "kg".toList ∨ item.unit = "g".toList then "g".toList
        else if pu = "l".toList ∨ item.unit = "ml".toList then "ml".toList
        else pu
      { product, unitsNeeded := n, actualAmount := (n : ℚ) * conv.1, actualUnit := finalUnit,
        totalPrice := (n : ℚ) * product.price, confidence := candidate.score,
        matchTier := candidate.tier }

/-- Embedding of the deterministic branch of
`GroceryService.calculateQuantityForProduct` (grocery-service.ts lines
401-444): parse `"title volume"`, run `calculateUnitsNeeded`, and on
success build the match, upscaling g→kg and ml→l for amounts of 1000 or
more.  The `none` result stands for the source falling through to the
external AI quantity estimator. -/
def calculateQuantityForProductDet (item : ShoppingItem) (candidate : Candidate) : Option ProductMatch :=
  let product := candidate.product
  match parseVolume (product.title ++ ' ' :: product.volume) with
  | none => none
  | some (pa, pu) =>
    match calculateUnitsNeeded item.amount item.unit pa pu with
    | none => none
    | some n =>
      let a0 := (n : ℚ) * pa
      let au : ℚ × Str :=
        if pu = "g".toList ∧ 1000 ≤ a0 then (a0 / 1000, "kg".toList)
        else if pu = "ml".toList ∧ 1000 ≤ a0 then (a0 / 1000, "l".toList)
        else (a0, pu)
      some { product, unitsNeeded := n, actualAmount := au.1, actualUnit := au.2,
             totalPrice := (n : ℚ) * product.price, confidence := candidate.score,
             matchTier := candidate.tier }

/-! Helper lemmas about unit conversion. -/

/-- Spec-side comparable scale of §4.1: `g→1, kg→1000, ml→1, l→1000`,
no conversion for other unit tokens. -/
def comparableScale (u : Str) : Option ℚ :=
  if u = "g".toList then some 1
  else if u = "kg".toList then some 1000
  else if u = "ml".toList then some 1
  else if u = "l".toList then some 1000
  else none

/-! Tiered keyword search of grocery-service.ts. -/

/-- Search-term tiers (interface `SearchTiers`). -/
structure SearchTiers where
  tier1 : List Str
  tier2 : List Str
  tier3 : List Str

/-- Embedding of `GroceryService.basicKeywordScore`: per search term, an
exact title word scores 2.0, a strictly longer title word containing the
term 1.5, a bare substring of the title 1.0. -/
def basicKeywordScore (product : Product) (searchTerms : List Str) : ℚ :=
  let titleLower := toLowerStr product.title
  let titleWords := splitOnSpace titleLower
  searchTerms.foldl
    (fun score term =>
      let termLower := toLowerStr term
      if titleWords.contains termLower then score + 2
      else if titleWords.any fun word =>
          decide (termLower.length < word.length) && containsSeg termLower word then score + 3/2
      else if containsSeg termLower titleLower then score + 1
      else score)
    0

/-- Embedding of `GroceryService.searchProductsWithCategories`: hard
category filter first, then keyword scoring against the tier's threshold. -/
def searchProductsWithCategories (products : List Product) (searchTerms : List Str)
    (targetCategories : List Str) (tier : Str) (threshold : ℚ) : List Candidate :=
  products.filterMap fun product =>
    if targetCategories.contains product.category then
      if threshold ≤ basicKeywordScore product searchTerms then
        some { product, score := basicKeywordScore product searchTerms, tier }
      else none
    else none

/-- Embedding of the candidate-collection step of
`GroceryService.findMatchingProducts` (grocery-service.ts lines 197-213):
tier 1 always runs; tier 2 runs only while fewer than 5 candidates have
accumulated; tier 3 runs only while fewer than 3 have. -/
def findCandidatesTiered (products : List Product) (tiers : SearchTiers)
    (targetCategories : List Str) : List Candidate :=
  let c1 := searchProductsWithCategories products tiers.tier1 targetCategories "tier1".toList 0.8
  let c2 := if c1.length < 5 then
      c1 ++ searchProductsWithCategories products tiers.tier2 targetCategories "tier2".toList 0.5
    else c1
  if c2.length < 3 then
    c2 ++ searchProductsWithCategories products tiers.tier3 targetCategories "tier3".toList 0.3
  else c2

/-- Embedding of the candidate-collection step of
`GroceryService.findMatchingProductsUltraFast` (grocery-service.ts lines
688-698): tier 1 always runs, tier 2 only while fewer than 3 candidates
have accumulated, and no tier-3 pass exists. -/
def findCandidatesUltraFast (products : List Product) (tiers : SearchTiers)
    (targetCategories : List Str) : List Candidate :=
  let c1 := searchProductsWithCategories products tiers.tier1 targetCategories "tier1".toList 0.8
  if c1.length < 3 then
    c1 ++ searchProductsWithCategories products tiers.tier2 targetCategories "tier2".toList 0.5
  else c1

/-! Catalog validation of products-loader.ts. -/

/-- Minimal JSON-value model for the unknown-shaped catalog entries that
`validateProducts` inspects. -/
inductive JVal where
  | str : Str → JVal
  | num : ℚ → JVal
  | boolean : Bool → JVal
  | null : JVal
  | arr : List JVal → JVal
  | obj : List (Str × JVal) → JVal

/-- JavaScript property lookup on an object literal. -/
def getField (fields : List (Str × JVal)) (name : Str) : Option JVal :=
  (fields.find? fun f => f.1 == name).map fun f => f.2

/-- Embedding of `validateProducts` (products-loader.ts lines 115-152).
The `Array.isArray` test holds by construction for a Lean list.  The
source then checks, for each record of the sample prefix of length
`min(5, length)`: it is a non-null object (a non-object value, `null`, or
an array — which carries none of the named properties — all fail), all
five required fields are present, and each field has the required type
(`price` a number, the rest strings). -/
def validateProducts (products : List JVal) : Bool :=
  let sampleSize := min 5 products.length
  (List.range sampleSize).all fun i =>
    match products.get? i with
    | some (JVal.obj fields) =>
      (["category".toList, "title".toList, "price".toList, "volume".toList, "url".toList].all
        fun f => (getField fields f).isSome) &&
      (match getField fields "category".toList with | some (JVal.str _) => true | _ => false) &&
      (match getField fields "title".toList with | some (JVal.str _) => true | _ => false) &&
      (match getField fields "price".toList with | some (JVal.num _) => true | _ => false) &&
      (match getField fields "volume".toList with | some (JVal.str _) => true | _ => false) &&
      (match getField fields "url".toList with | some (JVal.str _) => true | _ => false)
    | _ => false

/-- Model of the engine-construction gate of the process-list route
(`initializeService`): construction proceeds only when `validateProducts`
accepts, otherwise it throws (here: `none`). -/
def initializeService (products : List JVal) : Option (List JVal) :=
  if validateProducts products then some products else none

/-! String similarity primitives of advanced-search-engine.ts. -/

/-- Embedding of `levenshteinDistance` (advanced-search-engine.ts lines
591-609).  The source fills the Wagner-Fischer matrix with border
`matrix[0][i] = i`, `matrix[j][0] = j` and cell rule
`matrix[j][i] = min(matrix[j][i-1]+1, matrix[j-1][i]+1, matrix[j-1][i-1]+cost)`,
`cost = 0` iff the characters agree; this is the defining recurrence of
the edit distance, realized here by structural recursion on the strings. -/
def levenshteinDistance : Str → Str → ℕ
  | [], ys => ys.length
  | xs, [] => xs.length
  | x :: xs, y :: ys =>
    min (levenshteinDistance xs (y :: ys) + 1)
      (min (levenshteinDistance (x :: xs) ys + 1)
        (levenshteinDistance xs ys + if x = y then 0 else 1))

/-- Embedding of `levenshteinSimilarity` (advanced-search-engine.ts lines
581-589): order the strings by length, return 1.0 for two empty strings
and `(longer.length − distance) / longer.length` otherwise. -/
def levenshteinSimilarity (s1 s2 : Str) : ℚ :=
  let longer := if s2.length < s1.length then s1 else s2
  let shorter := if s2.length < s1.length then s2 else s1
  if longer.length = 0 then 1
  else ((longer.length : ℚ) - levenshteinDistance longer shorter) / longer.length

/-- Inner loop of the Jaro matching phase: the first position `j` in the
window `[lo, hi)` of `s2` that is not yet matched and holds the character
`c` (`if (s2Matches[j] || s1[i] !== s2[j]) continue`). -/
def findUnmatched (s2 : Str) (s2M : List Bool) (c : Char) (lo hi : ℕ) : Option ℕ :=
  (List.range' lo (hi - lo)).find? fun j =>
    (s2M[j]? == some false) && (s2[j]? == some c)

/-- Matching phase of `jaroSimilarity` (the first loop of
advanced-search-engine.ts lines 636-646): walk `s1` with its running index
`i`, searching the window of `s2` for an unmatched equal character;
returns the match flags of `s1` in order together with the final match
flags of `s2`. -/
def jaroMatch (s2 : Str) (w : ℕ) : Str → ℕ → List Bool → List Bool × List Bool
  | [], _, s2M => ([], s2M)
  | c :: cs, i, s2M =>
    match findUnmatched s2 s2M c (i - w) (min (i + w + 1) s2.length) with
    | some j =>
      let r := jaroMatch s2 w cs (i + 1) (s2M.set j true)
      (true :: r.1, r.2)
    | none =>
      let r := jaroMatch s2 w cs (i + 1) s2M
      (false :: r.1, r.2)

/-- Characters of `s` at the positions its match flags mark (the
transposition loop of the source pairs the matched characters of `s1`, in
index order, with the matched characters of `s2`, in index order). -/
def selectMarked (s : Str) (flags : List Bool) : Str :=
  (List.zip s flags).filterMap fun p => if p.2 then some p.1 else none

/-- Transposition count of `jaroSimilarity`: the number of index positions
where the matched characters of the two strings disagree. -/
def jaroTranspositions (m1 m2 : Str) : ℕ :=
  (List.zip m1 m2).countP fun p => p.1 != p.2

/-- Embedding of `jaroSimilarity` (advanced-search-engine.ts lines
625-661): 1.0 for two empty strings, 0.0 when exactly one is empty, 0.0
when the match window `⌊max(len)/2⌋ − 1` is negative or no character
matches, otherwise
`(m/len1 + m/len2 + (m − t/2)/m) / 3` for `m` matches and `t`
transpositions. -/
def jaroSimilarity (s1 s2 : Str) : ℚ :=
  if s1.length = 0 ∧ s2.length = 0 then 1
  else if s1.length = 0 ∨ s2.length = 0 then 0
  else
    let mw : ℤ := ((max s1.length s2.length : ℕ) : ℤ) / 2 - 1
    if mw < 0 then 0
    else
      let flags := jaroMatch s2 mw.toNat s1 0 (List.replicate s2.length false)
      let m := flags.1.count true
      if m = 0 then 0
      else
        let t := jaroTranspositions (selectMarked s1 flags.1) (selectMarked s2 flags.2)
        ((m : ℚ) / s1.length + (m : ℚ) / s2.length + ((m : ℚ) - (t : ℚ) / 2) / m) / 3

/-- Common-prefix length used by the Winkler bonus: matching leading
characters, capped at `min(len1, len2, 4)` by the source loop. -/
def jwCommonStart (s1 s2 : Str) : ℕ :=
  (((List.zip s1 s2).take 4).takeWhile fun p => p.1 == p.2).length

/-- Embedding of `jaroWinklerSimilarity` (advanced-search-engine.ts lines
611-623): below Jaro 0.7 the Jaro value is returned unchanged, otherwise
the prefix bonus `0.1 × prefix × (1 − jaro)` is added, the common prefix
being capped at 4 characters. -/
def jaroWinklerSimilarity (s1 s2 : Str) : ℚ :=
  let jaro := jaroSimilarity s1 s2
  if jaro < 0.7 then jaro
  else jaro + 0.1 * jwCommonStart s1 s2 * (1 - jaro)

/-- Document string of a product (`getProductText`): title, category and
volume text joined by spaces. -/
def getProductText (p : Product) : Str :=
  p.title ++ ' ' :: p.category ++ ' ' :: p.volume

/-- Embedding of `getNgrams`: the set of length-`n` substrings of the text
(a deduplicated list stands for the JavaScript `Set`). -/
def getNgrams (text : Str) (n : ℕ) : List Str :=
  ((List.range (text.length + 1 - n)).map fun i => (text.drop i).take n).dedup

/-- Embedding of `ngramSimilarity`: Jaccard coefficient of the two n-gram
sets; 1.0 when both sets are empty and 0.0 when exactly one is. -/
def ngramSimilarity (s1 s2 : Str) (n : ℕ) : ℚ :=
  let g1 := getNgrams s1 n
  let g2 := getNgrams s2 n
  if g1 = [] ∧ g2 = [] then 1
  else if g1 = [] ∨ g2 = [] then 0
  else ((g1.filter fun x => g2.contains x).length : ℚ) / (((g1 ++ g2).dedup).length : ℚ)

/-- Embedding of `weightedSubstringMatch`: reward the query appearing as a
contiguous substring, weighted by its position (earlier is better) and its
length ratio, with a fallback of 0.8 times the fraction of space-separated
query terms found as substrings; the result is the larger of the two. -/
def weightedSubstringMatch (query text : Str) : ℚ :=
  let subScore : ℚ :=
    match (List.range (text.length + 1)).find? (fun i => (text.drop i).take query.length == query) with
    | some i =>
      let positionWeight : ℚ := 1 - ((i : ℚ) / text.length) * (1/2)
      let lengthWeight : ℚ := (query.length : ℚ) / text.length
      max 0 (positionWeight * lengthWeight)
    | none => 0
  let queryTerms := splitOnSpace query
  let termMatches := (queryTerms.filter fun term => containsSeg term text).length
  let termScore := (termMatches : ℚ) / queryTerms.length * 0.8
  max subScore termScore

/-- Embedding of `calculateFuzzyScore` (advanced-search-engine.ts lines
248-271): running maximum of the four similarity primitives on the
lowercased query and product text, gated at the threshold. -/
def calculateFuzzyScore (query : Str) (product : Product) (threshold : ℚ) : ℚ :=
  let productText := toLowerStr (getProductText product)
  let queryLower := toLowerStr query
  let m1 := max 0 (levenshteinSimilarity queryLower productText)
  let m2 := max m1 (jaroWinklerSimilarity queryLower productText)
  let m3 := max m2 (ngramSimilarity queryLower productText 3)
  let m4 := max m3 (weightedSubstringMatch queryLower productText)
  if threshold ≤ m4 then m4 else 0

/-! Post-fusion quality filter of advanced-search-engine.ts. -/

/-- JavaScript word characters `[A-Za-z0-9_]` (the regex class `\w`). -/
def isWordChar (c : Char) : Bool := c.isAlphanum || c = '_'

/-- Embedding of `tokenize`: lowercase, replace every character outside
`\w` by a space (the source replaces `[^\w\s]` and then splits on
whitespace runs, which comes to the same token list), split, and keep
tokens longer than one character. -/
def tokenize (text : Str) : List Str :=
  (splitOnSpace ((toLowerStr text).map fun c => if isWordChar c then c else ' ')).filter
    fun w => decide (1 < w.length)

/-- Per-signal relevance breakdown of a search result.  The source field
`attribute` is renamed `attr` (reserved word in Lean). -/
structure Breakdown where
  tfidf : ℚ
  fuzzy : ℚ
  semantic : ℚ
  exact : ℚ
  attr : ℚ
  category : ℚ
  final : ℚ
deriving DecidableEq

/-- Scored search result of the advanced engine (interface `SearchResult`). -/
structure SearchResult where
  product : Product
  score : ℚ
  tier : Str
  relevanceBreakdown : Breakdown
deriving DecidableEq

/-- Embedding of `applyQualityFilters` (advanced-search-engine.ts lines
452-479): keep a candidate iff its score is not below 0.05, it is
in-category or its score is not below 0.8 (when a target category set was
given), and some tokenized query term appears literally in the lowercased
candidate text or the fuzzy breakdown exceeds 0.3 (the fuzzy test sits
inside the per-term `some`, as in the source). -/
def applyQualityFilters (results : List SearchResult) (query : Str)
    (categories : List Str) : List SearchResult :=
  results.filter fun result =>
    if result.score < 0.05 then false
    else if 0 < categories.length ∧ ¬categories.contains result.product.category ∧
        result.score < 0.8 then false
    else
      (tokenize (toLowerStr query)).any fun term =>
        containsSeg term (toLowerStr (getProductText result.product)) ||
        decide ((0.3 : ℚ) < result.relevanceBreakdown.fuzzy)

/-! Lemmas and claim theorems. -/

lemma convertToGrams_eq_scale (a : ℚ) (u : Str) :
    convertToGrams a u = (comparableScale (toLowerStr u)).map fun f => a * f := by
  simp only [convertToGrams, comparableScale]
  split_ifs <;> simp_all

lemma convertToGrams_pos {a g : ℚ} {u : Str} (ha : 0 < a)
    (h : convertToGrams a u = some g) : 0 < g := by
  simp only [convertToGrams] at h
  split_ifs at h <;> simp_all <;> linarith

/-- C3. For all amounts and units: when both the target and the pack
quantity convert to the comparable gram/milliliter scale (g→1, kg→1000,
ml→1, l→1000), `calculateUnitsNeeded` returns the ceiling of
targetComparable / packComparable; when both units are the piece unit
(canonically spelled `stück` in this code base), it returns the ceiling of
targetAmount / packAmount; otherwise it returns none.  In particular
650 g against 500 g packs gives 2 and 1 piece against 1-piece packs
gives 1. -/
theorem calculateUnitsNeeded_spec :
    (∀ (na pa f1 f2 : ℚ) (nu pu : Str),
        comparableScale (toLowerStr nu) = some f1 →
        comparableScale (toLowerStr pu) = some f2 →
        calculateUnitsNeeded na nu pa pu = some ⌈(na * f1) / (pa * f2)⌉) ∧
    (∀ (na pa : ℚ) (nu pu : Str),
        toLowerStr nu = "stück".toList → toLowerStr pu = "stück".toList →
        calculateUnitsNeeded na nu pa pu = some ⌈na / pa⌉) ∧
    (∀ (na pa : ℚ) (nu pu : Str),
        (comparableScale (toLowerStr nu) = none ∨ comparableScale (toLowerStr pu) = none) →
        ¬(toLowerStr nu = "stück".toList ∧ toLowerStr pu = "stück".toList) →
        calculateUnitsNeeded na nu pa pu = none) ∧
    calculateUnitsNeeded 650 "g".toList 500 "g".toList = some 2 ∧
    calculateUnitsNeeded 1 "stück".toList 1 "stück".toList = some 1 := by
  refine ⟨?_, ?_, ?_, ?_, ?_⟩
  · intro na pa f1 f2 nu pu h1 h2
    simp [calculateUnitsNeeded, convertToGrams_eq_scale, h1, h2]
  · intro na pa nu pu h1 h2
    simp +decide [calculateUnitsNeeded, convertToGrams_eq_scale, comparableScale, h1, h2]
  · intro na pa nu pu h1 h2
    rcases h1 with h1 | h1
    · simp +decide [calculateUnitsNeeded, convertToGrams_eq_scale, h1]
      tauto
    · cases hn : comparableScale (toLowerStr nu) <;>
        simp +decide [calculateUnitsNeeded, convertToGrams_eq_scale, hn, h1] <;> tauto
  · simp +decide [calculateUnitsNeeded, convertToGrams, toLowerStr, lowerChar]
    norm_num [Int.ceil_eq_iff]
  · simp +decide [calculateUnitsNeeded, convertToGrams, toLowerStr, lowerChar]

/-- Witness for C3: the concrete 650 g / 500 g instance through the first
(comparable-scale) clause and a mixed piece/gram pair through the `none`
clause, with every hypothesis discharged on concrete inputs. -/
theorem calculateUnitsNeeded_spec_witness :
    calculateUnitsNeeded 650 "g".toList 500 "g".toList = some ⌈(650 * 1 : ℚ) / (500 * 1)⌉ ∧
    calculateUnitsNeeded 650 "g".toList 2 "stück".toList = none := by
  constructor
  · exact calculateUnitsNeeded_spec.1 650 500 1 1 "g".toList "g".toList (by decide) (by decide)
  · exact calculateUnitsNeeded_spec.2.2.1 650 2 "g".toList "stück".toList
      (Or.inr (by decide)) (by decide)

lemma calculateUnitsNeeded_pos {na pa : ℚ} {nu pu : Str} {n : ℤ}
    (hna : 0 < na) (hpa : 0 < pa)
    (h : calculateUnitsNeeded na nu pa pu = some n) : 1 ≤ n := by
  simp only [calculateUnitsNeeded] at h
  cases h1 : convertToGrams na nu with
  | some ng =>
    cases h2 : convertToGrams pa pu with
    | some pg =>
      rw [h1, h2] at h
      simp at h
      have hng := convertToGrams_pos hna h1
      have hpg := convertToGrams_pos hpa h2
      have : (0 : ℤ) < ⌈ng / pg⌉ := Int.ceil_pos.mpr (div_pos hng hpg)
      omega
    | none =>
      rw [h1, h2] at h
      split_ifs at h
      simp_all
      have : (0 : ℤ) < ⌈na / pa⌉ := Int.ceil_pos.mpr (div_pos hna hpa)
      omega
  | none =>
    rw [h1] at h
    split_ifs at h
    simp_all
    have : (0 : ℤ) < ⌈na / pa⌉ := Int.ceil_pos.mpr (div_pos hna hpa)
    omega

/-- C10.  When a candidate product's volume text fails to parse or parses
to amount 0, `calculateQuantitySimple` performs no division and returns
the one-piece default match: `unitsNeeded = 1`, `actualAmount = 1`,
`actualUnit = "stück"`, `totalPrice = product.price` — it never returns
`null` on this path, so an unparsable pack size alone cannot push the item
onto the not-found list. -/
theorem calculateQuantitySimple_unparsable (item : ShoppingItem) (cand : Candidate)
    (h : parseVolume cand.product.volume = none ∨
         ∃ pu, parseVolume cand.product.volume = some (0, pu)) :
    calculateQuantitySimple item cand =
      { product := cand.product, unitsNeeded := 1, actualAmount := 1,
        actualUnit := "stück".toList, totalPrice := cand.product.price,
        confidence := cand.score, matchTier := cand.tier } := by
  rcases h with h | ⟨pu, h⟩ <;> simp [calculateQuantitySimple, h]

/-- Witness for C10: a concrete item and a product whose volume text
`"je Packung"` matches no extraction pattern still produces the one-piece
default match. -/
theorem calculateQuantitySimple_unparsable_witness :
    calculateQuantitySimple
        { item := "tofu".toList, amount := 650, unit := "g".toList,
          originalText := "650g tofu".toList, attributes := [], alternatives := [],
          itemType := "dry_goods".toList }
        { product := { category := "Fleisch & Fisch".toList, title := "Fester Tofu".toList,
                       price := 149/100, volume := "je Packung".toList, url := "u".toList },
          score := 1, tier := "tier1".toList } =
      { product := { category := "Fleisch & Fisch".toList, title := "Fester Tofu".toList,
                     price := 149/100, volume := "je Packung".toList, url := "u".toList },
        unitsNeeded := 1, actualAmount := 1, actualUnit := "stück".toList,
        totalPrice := 149/100, confidence := 1, matchTier := "tier1".toList } := by
  exact calculateQuantitySimple_unparsable _ _
    (Or.inl (by simp +decide [parseVolume, trimWs, toLowerStr, lowerChar, scanLeftmost,
      matchAmountUnitAt, matchMultiPackAt, matchCircaAt, matchUnitAt, pat1Units, pat2Units,
      pat3Units, pat4Units, amountOf, digitsToNat, normalizeUnit]))

/-- C1 (amended).  `totalPrice = unitsNeeded × product.price` holds exactly
on every match either quantity-resolution path produces; `unitsNeeded ≥ 1`
holds unconditionally on the simple path (it clamps with `max(1, ·)`), and
on the product-volume path whenever the requested amount and the parsed
pack amount are positive.  (The unamended claim fails on the
product-volume path for a requested amount of 0, see the counterexample.) -/
theorem quantityResolution_invariants :
    (∀ (item : ShoppingItem) (cand : Candidate),
        1 ≤ (calculateQuantitySimple item cand).unitsNeeded ∧
        (calculateQuantitySimple item cand).totalPrice =
          ((calculateQuantitySimple item cand).unitsNeeded : ℚ) * cand.product.price) ∧
    (∀ (item : ShoppingItem) (cand : Candidate) (m : ProductMatch),
        calculateQuantityForProductDet item cand = some m →
        m.totalPrice = (m.unitsNeeded : ℚ) * cand.product.price) ∧
    (∀ (item : ShoppingItem) (cand : Candidate) (pa : ℚ) (pu : Str) (m : ProductMatch),
        0 < item.amount → 0 < pa →
        parseVolume (cand.product.title ++ ' ' :: cand.product.volume) = some (pa, pu) →
        calculateQuantityForProductDet item cand = some m →
        1 ≤ m.unitsNeeded) := by
  refine ⟨?_, ?_, ?_⟩
  · intro item cand
    cases hp : parseVolume cand.product.volume with
    | none => simp [calculateQuantitySimple, hp]
    | some v =>
      obtain ⟨pa, pu⟩ := v
      by_cases h0 : pa = 0
      · simp [calculateQuantitySimple, hp, h0]
      · by_cases hu : item.unit = pu
        · simp [calculateQuantitySimple, hp, h0, hu]
        · simp [calculateQuantitySimple, hp, h0, hu]
  · intro item cand m h
    simp only [calculateQuantityForProductDet] at h
    cases hp : parseVolume (cand.product.title ++ ' ' :: cand.product.volume) with
    | none => rw [hp] at h; simp at h
    | some v =>
      obtain ⟨pa, pu⟩ := v
      rw [hp] at h
      simp only [] at h
      cases hn : calculateUnitsNeeded item.amount item.unit pa pu with
      | none => rw [hn] at h; simp at h
      | some n =>
        rw [hn] at h
        simp at h
        obtain rfl := h.symm
        simp
  · intro item cand pa pu m hia hpa hp h
    simp only [calculateQuantityForProductDet] at h
    rw [hp] at h
    simp only [] at h
    cases hn : calculateUnitsNeeded item.amount item.unit pa pu with
    | none => rw [hn] at h; simp at h
    | some n =>
      rw [hn] at h
      simp at h
      obtain rfl := h.symm
      simpa using calculateUnitsNeeded_pos hia hpa hn

/-- Witness for C1: a 650 g request against a 500 g pack runs the
product-volume path with all hypotheses satisfied and yields
`unitsNeeded = 2` at total price `2 × 1.49`. -/
theorem quantityResolution_invariants_witness :
    calculateQuantityForProductDet
        { item := "tomaten".toList, amount := 650, unit := "g".toList,
          originalText := "650g tomaten".toList, attributes := [], alternatives := [],
          itemType := "fresh_produce".toList }
        { product := { category := "Obst & Gemüse".toList, title := "Tomaten".toList,
                       price := 149/100, volume := "500g".toList, url := "u".toList },
          score := 1, tier := "tier1".toList } =
      some { product := { category := "Obst & Gemüse".toList, title := "Tomaten".toList,
                          price := 149/100, volume := "500g".toList, url := "u".toList },
             unitsNeeded := 2, actualAmount := 1, actualUnit := "kg".toList,
             totalPrice := 149/50, confidence := 1, matchTier := "tier1".toList } ∧
    1 ≤ ({ product := { category := "Obst & Gemüse".toList, title := "Tomaten".toList,
                        price := 149/100, volume := "500g".toList, url := "u".toList },
           unitsNeeded := 2, actualAmount := 1, actualUnit := "kg".toList,
           totalPrice := 149/50, confidence := 1, matchTier := "tier1".toList } : ProductMatch).unitsNeeded := by
  have hp : parseVolume ("Tomaten".toList ++ ' ' :: "500g".toList) = some (500, "g".toList) := by
    simp +decide [parseVolume, trimWs, toLowerStr, lowerChar, scanLeftmost, matchAmountUnitAt,
      matchUnitAt, pat1Units, amountOf, digitsToNat, normalizeUnit]
  have hd : calculateQuantityForProductDet
      { item := "tomaten".toList, amount := 650, unit := "g".toList,
        originalText := "650g tomaten".toList, attributes := [], alternatives := [],
        itemType := "fresh_produce".toList }
      { product := { category := "Obst & Gemüse".toList, title := "Tomaten".toList,
                     price := 149/100, volume := "500g".toList, url := "u".toList },
        score := 1, tier := "tier1".toList } =
      some { product := { category := "Obst & Gemüse".toList, title := "Tomaten".toList,
                          price := 149/100, volume := "500g".toList, url := "u".toList },
             unitsNeeded := 2, actualAmount := 1, actualUnit := "kg".toList,
             totalPrice := 149/50, confidence := 1, matchTier := "tier1".toList } := by
    simp +decide [calculateQuantityForProductDet, parseVolume, trimWs, toLowerStr, lowerChar,
      scanLeftmost, matchAmountUnitAt, matchUnitAt, pat1Units, amountOf, digitsToNat,
      normalizeUnit, calculateUnitsNeeded, convertToGrams]
    have hceil : (⌈(650 : ℚ) / 500⌉ : ℤ) = 2 := by norm_num [Int.ceil_eq_iff]
    rw [hceil]
    norm_num
  refine ⟨hd, ?_⟩
  exact quantityResolution_invariants.2.2
    { item := "tomaten".toList, amount := 650, unit := "g".toList,
      originalText := "650g tomaten".toList, attributes := [], alternatives := [],
      itemType := "fresh_produce".toList }
    { product := { category := "Obst & Gemüse".toList, title := "Tomaten".toList,
                   price := 149/100, volume := "500g".toList, url := "u".toList },
      score := 1, tier := "tier1".toList }
    500 "g".toList _ (by norm_num) (by norm_num) hp hd

/-- Counterexample for C1 as stated: a shopping item whose requested amount
is 0 (nothing in `ShoppingItem` rules this out) against a parsable 500 g
pack makes the deterministic product-volume path return a match with
`unitsNeeded = 0`, violating `unitsNeeded ≥ 1`; no `max(1, ·)` clamp
exists on this path. -/
theorem quantityForProduct_amount_zero :
    (calculateQuantityForProductDet
        { item := "tomaten".toList, amount := 0, unit := "g".toList,
          originalText := "0g tomaten".toList, attributes := [], alternatives := [],
          itemType := "fresh_produce".toList }
        { product := { category := "Obst & Gemüse".toList, title := "Tomaten".toList,
                       price := 149/100, volume := "500g".toList, url := "u".toList },
          score := 1, tier := "tier1".toList }).map ProductMatch.unitsNeeded = some 0 := by
  simp +decide [calculateQuantityForProductDet, parseVolume, trimWs, toLowerStr, lowerChar,
    scanLeftmost, matchAmountUnitAt, matchUnitAt, pat1Units, amountOf, digitsToNat,
    normalizeUnit, calculateUnitsNeeded, convertToGrams]

/-- C2 (failing-input evaluation).  The first pattern
`(\d+(?:,\d+)?)\s*(kg|g|ml|l|stück|stuck)` already matches the substring
`100ml` of `2x100ml`, so the multiplicative pack pattern `(\d+)x(\d+)(g|ml|l)`
never fires and `parseVolume "2x100ml"` is `{amount: 100, unit: "ml"}`,
not the claimed `{amount: 200, unit: "ml"}`.  The other two claimed
evaluations do hold. -/
theorem parseVolume_pattern_shadowing :
    parseVolume "2x100ml".toList = some (100, "ml".toList) ∧
    parseVolume "500g".toList = some (500, "g".toList) ∧
    parseVolume "ca. 3kg".toList = some (3, "kg".toList) := by
  refine ⟨?_, ?_, ?_⟩ <;>
    simp +decide [parseVolume, trimWs, toLowerStr, lowerChar, scanLeftmost, matchAmountUnitAt,
      matchUnitAt, pat1Units, amountOf, digitsToNat, normalizeUnit]

/-- C5 (amended).  In `findMatchingProducts`, the tier-2 pass runs exactly
when tier 1 produced fewer than 5 candidates and the tier-3 pass exactly
when the cumulative count after the earlier passes is below 3; a pass that
does not run contributes nothing.  The ultra-fast fallback
`findMatchingProductsUltraFast`, however, triggers its tier-2 pass only
below 3 tier-1 candidates and has no tier-3 pass at all. -/
theorem tieredSearch_escalation :
    ∀ (products : List Product) (tiers : SearchTiers) (cats : List Str),
      (findCandidatesTiered products tiers cats =
        (searchProductsWithCategories products tiers.tier1 cats "tier1".toList 0.8 ++
          (if (searchProductsWithCategories products tiers.tier1 cats "tier1".toList 0.8).length < 5
           then searchProductsWithCategories products tiers.tier2 cats "tier2".toList 0.5
           else [])) ++
        (if ((searchProductsWithCategories products tiers.tier1 cats "tier1".toList 0.8 ++
              (if (searchProductsWithCategories products tiers.tier1 cats "tier1".toList 0.8).length < 5
               then searchProductsWithCategories products tiers.tier2 cats "tier2".toList 0.5
               else []))).length < 3
         then searchProductsWithCategories products tiers.tier3 cats "tier3".toList 0.3
         else [])) ∧
      (findCandidatesUltraFast products tiers cats =
        searchProductsWithCategories products tiers.tier1 cats "tier1".toList 0.8 ++
          (if (searchProductsWithCategories products tiers.tier1 cats "tier1".toList 0.8).length < 3
           then searchProductsWithCategories products tiers.tier2 cats "tier2".toList 0.5
           else [])) := by
  intro products tiers cats
  simp only [findCandidatesTiered, findCandidatesUltraFast]
  generalize searchProductsWithCategories products tiers.tier1 cats "tier1".toList 0.8 = t1
  generalize searchProductsWithCategories products tiers.tier2 cats "tier2".toList 0.5 = t2
  generalize searchProductsWithCategories products tiers.tier3 cats "tier3".toList 0.3 = t3
  refine ⟨?_, ?_⟩
  · by_cases h5 : t1.length < 5
    · by_cases h3 : t1.length + t2.length < 3
      · simp [h5, h3]
      · simp [h5, h3]
    · have h3 : ¬t1.length < 3 := by omega
      simp [h5, h3]
  · by_cases h3 : t1.length < 3
    · simp [h3]
    · simp [h3]

/-- Counterexample for C5 as stated: with four tier-1 hits (fewer than 5)
and a productive tier-2 term, `findMatchingProductsUltraFast` — one of the
two cited orchestration sites — does not run its tier-2 pass (its hard-coded
trigger is `< 3`, not `< 5`), so the tier-2 candidate contributes nothing. -/
theorem ultraFast_tier2_not_triggered :
    (searchProductsWithCategories
        [{ category := "a".toList, title := "tofu eins".toList, price := 1, volume := [], url := [] },
         { category := "a".toList, title := "tofu zwei".toList, price := 1, volume := [], url := [] },
         { category := "a".toList, title := "tofu drei".toList, price := 1, volume := [], url := [] },
         { category := "a".toList, title := "tofu vier".toList, price := 1, volume := [], url := [] },
         { category := "a".toList, title := "spezial mix".toList, price := 1, volume := [], url := [] }]
        ["tofu".toList] ["a".toList] "tier1".toList 0.8).length = 4 ∧
    (searchProductsWithCategories
        [{ category := "a".toList, title := "tofu eins".toList, price := 1, volume := [], url := [] },
         { category := "a".toList, title := "tofu zwei".toList, price := 1, volume := [], url := [] },
         { category := "a".toList, title := "tofu drei".toList, price := 1, volume := [], url := [] },
         { category := "a".toList, title := "tofu vier".toList, price := 1, volume := [], url := [] },
         { category := "a".toList, title := "spezial mix".toList, price := 1, volume := [], url := [] }]
        ["spezial".toList] ["a".toList] "tier2".toList 0.5).length = 1 ∧
    findCandidatesUltraFast
        [{ category := "a".toList, title := "tofu eins".toList, price := 1, volume := [], url := [] },
         { category := "a".toList, title := "tofu zwei".toList, price := 1, volume := [], url := [] },
         { category := "a".toList, title := "tofu drei".toList, price := 1, volume := [], url := [] },
         { category := "a".toList, title := "tofu vier".toList, price := 1, volume := [], url := [] },
         { category := "a".toList, title := "spezial mix".toList, price := 1, volume := [], url := [] }]
        { tier1 := ["tofu".toList], tier2 := ["spezial".toList], tier3 := [] } ["a".toList] =
      searchProductsWithCategories
        [{ category := "a".toList, title := "tofu eins".toList, price := 1, volume := [], url := [] },
         { category := "a".toList, title := "tofu zwei".toList, price := 1, volume := [], url := [] },
         { category := "a".toList, title := "tofu drei".toList, price := 1, volume := [], url := [] },
         { category := "a".toList, title := "tofu vier".toList, price := 1, volume := [], url := [] },
         { category := "a".toList, title := "spezial mix".toList, price := 1, volume := [], url := [] }]
        ["tofu".toList] ["a".toList] "tier1".toList 0.8 := by
  refine ⟨?_, ?_, ?_⟩ <;>
    norm_num +decide [findCandidatesUltraFast, searchProductsWithCategories, basicKeywordScore,
      splitOnSpace, toLowerStr, lowerChar, containsSeg, List.filterMap_cons]

/-- C6 (failing-input evaluation).  `validateProducts` accepts the empty
catalog — the sample loop over `min(5, 0)` records is vacuous — so engine
construction proceeds silently on an implicit empty catalog instead of
aborting; the claim's rejection of a malformed sampled prefix (missing
field, wrongly typed field, non-object entry) does hold, as the remaining
conjuncts show. -/
theorem validateProducts_empty_accepted :
    validateProducts [] = true ∧
    initializeService [] = some [] ∧
    validateProducts [JVal.obj [("category".toList, JVal.str "a".toList)]] = false ∧
    validateProducts
      [JVal.obj [("category".toList, JVal.str "a".toList), ("title".toList, JVal.str "t".toList),
                 ("price".toList, JVal.str "1,99".toList), ("volume".toList, JVal.str "v".toList),
                 ("url".toList, JVal.str "u".toList)]] = false ∧
    validateProducts [JVal.null] = false ∧
    validateProducts
      [JVal.obj [("category".toList, JVal.str "a".toList), ("title".toList, JVal.str "t".toList),
                 ("price".toList, JVal.num 1), ("volume".toList, JVal.str "v".toList),
                 ("url".toList, JVal.str "u".toList)]] = true := by
  refine ⟨?_, ?_, ?_, ?_, ?_, ?_⟩ <;>
    simp +decide [validateProducts, initializeService, getField]

lemma levenshteinDistance_nil_right (xs : Str) : levenshteinDistance xs [] = xs.length := by
  cases xs <;> simp [levenshteinDistance]

lemma levenshteinDistance_self (xs : Str) : levenshteinDistance xs xs = 0 := by
  induction xs with
  | nil => simp [levenshteinDistance]
  | cons x xs ih =>
    simp [levenshteinDistance, ih]

lemma levenshteinDistance_comm (a : Str) : ∀ b, levenshteinDistance a b = levenshteinDistance b a := by
  induction a with
  | nil => intro b; simp [levenshteinDistance, levenshteinDistance_nil_right]
  | cons x xs ih =>
    intro b
    induction b with
    | nil => simp [levenshteinDistance, levenshteinDistance_nil_right]
    | cons y ys ihb =>
      simp only [levenshteinDistance]
      rw [ih (y :: ys), ih ys, ← ihb]
      have hc : (if x = y then 0 else 1 : ℕ) = (if y = x then 0 else 1) := by
        by_cases h : x = y
        · simp [h]
        · rw [if_neg h, if_neg (Ne.symm h)]
      rw [hc]
      omega

lemma levenshteinDistance_le_max (a : Str) : ∀ b, levenshteinDistance a b ≤ max a.length b.length := by
  induction a with
  | nil => intro b; simp [levenshteinDistance]
  | cons x xs ih =>
    intro b
    cases b with
    | nil => simp [levenshteinDistance_nil_right]
    | cons y ys =>
      have h := ih ys
      simp only [levenshteinDistance, List.length_cons]
      by_cases hxy : x = y <;> simp [hxy] <;> omega

lemma levenshteinSimilarity_eq (a b : Str) :
    levenshteinSimilarity a b =
      1 - (levenshteinDistance a b : ℚ) / ((max a.length b.length : ℕ) : ℚ) := by
  simp only [levenshteinSimilarity]
  by_cases hab : b.length < a.length
  · have hmax : max a.length b.length = a.length := by omega
    have h0 : a.length ≠ 0 := by omega
    rw [if_pos hab, if_pos hab, if_neg h0, hmax]
    have hc : ((a.length : ℚ)) ≠ 0 := Nat.cast_ne_zero.mpr h0
    field_simp
  · have hmax : max a.length b.length = b.length := by omega
    rw [if_neg hab, if_neg hab, hmax, levenshteinDistance_comm b a]
    by_cases h0 : b.length = 0
    · have ha0 : a.length = 0 := by omega
      have ha : a = [] := List.length_eq_zero.mp ha0
      have hb : b = [] := List.length_eq_zero.mp h0
      subst ha; subst hb
      simp [levenshteinDistance]
    · rw [if_neg h0]
      have hc : ((b.length : ℚ)) ≠ 0 := Nat.cast_ne_zero.mpr h0
      field_simp

/-- C7.  The Levenshtein similarity is 1.0 on every pair of equal strings,
symmetric, equal to `1 − editDistance(a,b) / max(len(a), len(b))` for every
pair, and 1.0 on two empty strings. -/
theorem levenshteinSimilarity_spec :
    ∀ a b : Str,
      levenshteinSimilarity a a = 1 ∧
      levenshteinSimilarity a b = levenshteinSimilarity b a ∧
      levenshteinSimilarity a b =
        1 - (levenshteinDistance a b : ℚ) / ((max a.length b.length : ℕ) : ℚ) ∧
      levenshteinSimilarity [] [] = 1 := by
  intro a b
  refine ⟨?_, ?_, levenshteinSimilarity_eq a b, by simp [levenshteinSimilarity]⟩
  · rw [levenshteinSimilarity_eq a a, levenshteinDistance_self]
    simp
  · rw [levenshteinSimilarity_eq a b, levenshteinSimilarity_eq b a,
      levenshteinDistance_comm a b, Nat.max_comm a.length b.length]

lemma findUnmatched_some {s2 : Str} {s2M : List Bool} {c : Char} {lo hi j : ℕ}
    (h : findUnmatched s2 s2M c lo hi = some j) : s2M[j]? = some false := by
  have hp := List.find?_some h
  simp at hp
  exact hp.1

lemma count_true_set : ∀ (l : List Bool) (j : ℕ), l[j]? = some false →
    (l.set j true).count true = l.count true + 1 := by
  intro l
  induction l with
  | nil => intro j h; simp at h
  | cons b t ih =>
    intro j h
    cases j with
    | zero =>
      simp at h
      subst h
      simp [List.count_cons]
    | succ j =>
      simp at h
      simp [List.count_cons, ih j h]
      omega

lemma jaroMatch_fst_length (s2 : Str) (w : ℕ) :
    ∀ (cs : Str) (i : ℕ) (s2M : List Bool), ((jaroMatch s2 w cs i s2M).1).length = cs.length := by
  intro cs
  induction cs with
  | nil => intro i s2M; simp [jaroMatch]
  | cons c cs ih =>
    intro i s2M
    simp only [jaroMatch]
    cases h : findUnmatched s2 s2M c (i - w) (min (i + w + 1) s2.length) <;>
      simp [ih]

lemma jaroMatch_snd_length (s2 : Str) (w : ℕ) :
    ∀ (cs : Str) (i : ℕ) (s2M : List Bool), ((jaroMatch s2 w cs i s2M).2).length = s2M.length := by
  intro cs
  induction cs with
  | nil => intro i s2M; simp [jaroMatch]
  | cons c cs ih =>
    intro i s2M
    simp only [jaroMatch]
    cases h : findUnmatched s2 s2M c (i - w) (min (i + w + 1) s2.length) <;>
      simp [ih]

lemma jaroMatch_count (s2 : Str) (w : ℕ) :
    ∀ (cs : Str) (i : ℕ) (s2M : List Bool),
      ((jaroMatch s2 w cs i s2M).2).count true =
        s2M.count true + ((jaroMatch s2 w cs i s2M).1).count true := by
  intro cs
  induction cs with
  | nil => intro i s2M; simp [jaroMatch]
  | cons c cs ih =>
    intro i s2M
    simp only [jaroMatch]
    cases h : findUnmatched s2 s2M c (i - w) (min (i + w + 1) s2.length) with
    | none => simp [ih, List.count_cons]
    | some j =>
      have hj := findUnmatched_some h
      simp [ih, List.count_cons, count_true_set s2M j hj]
      omega

lemma selectMarked_length : ∀ (s : Str) (flags : List Bool), s.length = flags.length →
    (selectMarked s flags).length = flags.count true := by
  intro s
  induction s with
  | nil =>
    intro flags h
    cases flags with
    | nil => simp [selectMarked]
    | cons b t => simp at h
  | cons c cs ih =>
    intro flags h
    cases flags with
    | nil => simp at h
    | cons b t =>
      simp at h
      cases b <;> simp [selectMarked, List.count_cons] <;>
        simpa [selectMarked] using ih t h

lemma jaroTranspositions_le (m1 m2 : Str) : jaroTranspositions m1 m2 ≤ m1.length := by
  calc jaroTranspositions m1 m2 ≤ (List.zip m1 m2).length := List.countP_le_length _
  _ ≤ m1.length := by simp [List.length_zip]

lemma jaroSimilarity_bounds (s1 s2 : Str) :
    0 ≤ jaroSimilarity s1 s2 ∧ jaroSimilarity s1 s2 ≤ 1 := by
  simp only [jaroSimilarity]
  split_ifs with h1 h2 h3 h4
  · norm_num
  · norm_num
  · norm_num
  · norm_num
  · -- main branch: bound the formula
    push_neg at h2
    obtain ⟨hl1, hl2⟩ := h2
    set flags := jaroMatch s2 (((max s1.length s2.length : ℕ) : ℤ) / 2 - 1).toNat s1 0
      (List.replicate s2.length false) with hflags
    set m := flags.1.count true with hm
    set t := jaroTranspositions (selectMarked s1 flags.1) (selectMarked s2 flags.2) with ht
    have hm1 : m ≤ s1.length := by
      calc m ≤ flags.1.length := List.count_le_length _ _
      _ = s1.length := jaroMatch_fst_length s2 _ s1 0 _
    have hm2 : m ≤ s2.length := by
      have hc := jaroMatch_count s2 (((max s1.length s2.length : ℕ) : ℤ) / 2 - 1).toNat s1 0
        (List.replicate s2.length false)
      rw [← hflags] at hc
      have hz : (List.replicate s2.length false).count true = 0 := by
        rw [List.count_replicate]
        simp
      have hlen : flags.2.length = s2.length := by
        rw [hflags, jaroMatch_snd_length s2 _ s1 0 _]
        exact List.length_replicate ..
      have heq : flags.2.count true = m := by rw [hm]; omega
      calc m = flags.2.count true := heq.symm
      _ ≤ flags.2.length := List.count_le_length _ _
      _ = s2.length := hlen
    have htm : t ≤ m := by
      have hsel : (selectMarked s1 flags.1).length = m := by
        rw [hm]
        exact selectMarked_length s1 flags.1 (by rw [jaroMatch_fst_length s2 _ s1 0 _])
      calc t ≤ (selectMarked s1 flags.1).length := jaroTranspositions_le _ _
      _ = m := hsel
    have hmq : 0 < (m : ℚ) := by
      have : 0 < m := Nat.pos_of_ne_zero h4
      exact_mod_cast this
    have hl1q : 0 < (s1.length : ℚ) := by
      have : 0 < s1.length := Nat.pos_of_ne_zero hl1
      exact_mod_cast this
    have hl2q : 0 < (s2.length : ℚ) := by
      have : 0 < s2.length := Nat.pos_of_ne_zero hl2
      exact_mod_cast this
    have hm1q : (m : ℚ) ≤ s1.length := by exact_mod_cast hm1
    have hm2q : (m : ℚ) ≤ s2.length := by exact_mod_cast hm2
    have htmq : (t : ℚ) ≤ m := by exact_mod_cast htm
    have htq : 0 ≤ (t : ℚ) := by positivity
    have e1a : 0 ≤ (m : ℚ) / s1.length := by positivity
    have e2a : 0 ≤ (m : ℚ) / s2.length := by positivity
    have e3a : 0 ≤ ((m : ℚ) - t / 2) / m := by
      apply div_nonneg _ hmq.le
      linarith
    have e1b : (m : ℚ) / s1.length ≤ 1 := (div_le_one hl1q).mpr hm1q
    have e2b : (m : ℚ) / s2.length ≤ 1 := (div_le_one hl2q).mpr hm2q
    have e3b : ((m : ℚ) - t / 2) / m ≤ 1 := by
      apply (div_le_one hmq).mpr
      linarith
    constructor
    · positivity
    · linarith

lemma takeWhile_length_le (p : α → Bool) : ∀ l : List α, (l.takeWhile p).length ≤ l.length := by
  intro l
  induction l with
  | nil => simp
  | cons a t ih =>
    by_cases h : p a
    · simp [List.takeWhile_cons, h]
      omega
    · simp [List.takeWhile_cons, h]

lemma jwCommonStart_le_four (s1 s2 : Str) : jwCommonStart s1 s2 ≤ 4 := by
  calc jwCommonStart s1 s2 ≤ ((List.zip s1 s2).take 4).length :=
        takeWhile_length_le _ _
  _ ≤ 4 := by
        rw [List.length_take]
        omega

/-- C8.  For every pair of strings the Jaro-Winkler similarity lies in
[0, 1] and dominates the plain Jaro similarity; the prefix bonus credits
at most 4 matching leading characters, so the value never exceeds
`jaro + 0.1·4·(1 − jaro)`. -/
theorem jaroWinklerSimilarity_spec :
    ∀ s1 s2 : Str,
      0 ≤ jaroWinklerSimilarity s1 s2 ∧
      jaroWinklerSimilarity s1 s2 ≤ 1 ∧
      jaroSimilarity s1 s2 ≤ jaroWinklerSimilarity s1 s2 ∧
      jwCommonStart s1 s2 ≤ 4 ∧
      jaroWinklerSimilarity s1 s2 ≤
        jaroSimilarity s1 s2 + 0.1 * 4 * (1 - jaroSimilarity s1 s2) := by
  intro s1 s2
  obtain ⟨hj0, hj1⟩ := jaroSimilarity_bounds s1 s2
  have hp4 : (jwCommonStart s1 s2 : ℚ) ≤ 4 := by exact_mod_cast jwCommonStart_le_four s1 s2
  have hp0 : (0 : ℚ) ≤ jwCommonStart s1 s2 := by positivity
  have h1mj : 0 ≤ 1 - jaroSimilarity s1 s2 := by linarith
  have hb0 : 0 ≤ (jwCommonStart s1 s2 : ℚ) * (1 - jaroSimilarity s1 s2) :=
    mul_nonneg hp0 h1mj
  have hb4 : (jwCommonStart s1 s2 : ℚ) * (1 - jaroSimilarity s1 s2) ≤
      4 * (1 - jaroSimilarity s1 s2) :=
    mul_le_mul_of_nonneg_right hp4 h1mj
  simp only [jaroWinklerSimilarity]
  split_ifs with h
  · exact ⟨hj0, hj1, le_refl _, jwCommonStart_le_four s1 s2, by nlinarith⟩
  · refine ⟨by nlinarith, by nlinarith, by nlinarith, jwCommonStart_le_four s1 s2, by nlinarith⟩

lemma levenshteinSimilarity_nonneg (a b : Str) : 0 ≤ levenshteinSimilarity a b := by
  rw [levenshteinSimilarity_eq]
  by_cases h : max a.length b.length = 0
  · simp [h]
  · have hd := levenshteinDistance_le_max a b
    have hdq : (levenshteinDistance a b : ℚ) ≤ ((max a.length b.length : ℕ) : ℚ) := by
      exact_mod_cast hd
    have hq : 0 < ((max a.length b.length : ℕ) : ℚ) := by
      exact_mod_cast Nat.pos_of_ne_zero h
    have := (div_le_one hq).mpr hdq
    linarith

/-- C9.  For every query, product and threshold the fuzzy score equals the
maximum of the four similarity primitives — Levenshtein, Jaro-Winkler,
trigram Jaccard and weighted substring — applied to the (lowercased)
query and product text when that maximum is at least the threshold, and 0
when it is below. -/
theorem calculateFuzzyScore_spec :
    ∀ (query : Str) (product : Product) (threshold : ℚ),
      calculateFuzzyScore query product threshold =
        (let ql := toLowerStr query
         let pt := toLowerStr (getProductText product)
         let best := max (max (levenshteinSimilarity ql pt) (jaroWinklerSimilarity ql pt))
           (max (ngramSimilarity ql pt 3) (weightedSubstringMatch ql pt))
         if threshold ≤ best then best else 0) := by
  intro query product threshold
  simp only [calculateFuzzyScore]
  rw [max_eq_right (levenshteinSimilarity_nonneg (toLowerStr query)
    (toLowerStr (getProductText product)))]
  rw [max_assoc]

/-- C4 (amended).  Every candidate returned by the post-fusion quality
filter scores at least 0.05; when a non-empty target category set was
given, a returned out-of-category candidate scores at least 0.8 (the
source drops only scores strictly below the threshold, so a fused score of
exactly 0.8 is tolerated — "exceeds" in the original claim fails at the
boundary); and some query term appears literally in the candidate text or
the fuzzy breakdown exceeds 0.3. -/
theorem applyQualityFilters_guarantees :
    ∀ (results : List SearchResult) (query : Str) (categories : List Str)
      (c : SearchResult), c ∈ applyQualityFilters results query categories →
      0.05 ≤ c.score ∧
      (0 < categories.length → ¬categories.contains c.product.category → 0.8 ≤ c.score) ∧
      ((∃ term ∈ tokenize (toLowerStr query),
          containsSeg term (toLowerStr (getProductText c.product)) = true) ∨
        0.3 < c.relevanceBreakdown.fuzzy) := by
  intro results query categories c hc
  rw [applyQualityFilters, List.mem_filter] at hc
  obtain ⟨-, hf⟩ := hc
  by_cases h1 : c.score < 0.05
  · rw [if_pos h1] at hf
    exact absurd hf (by simp)
  · rw [if_neg h1] at hf
    by_cases h2 : 0 < categories.length ∧ ¬categories.contains c.product.category ∧
        c.score < 0.8
    · rw [if_pos h2] at hf
      exact absurd hf (by simp)
    · rw [if_neg h2] at hf
      refine ⟨le_of_not_lt h1, ?_, ?_⟩
      · intro hlen hcat
        by_contra hlt
        exact h2 ⟨hlen, hcat, lt_of_not_le hlt⟩
      · simp only [List.any_eq_true, Bool.or_eq_true, decide_eq_true_eq] at hf
        obtain ⟨term, hmem, hor⟩ := hf
        rcases hor with hor | hor
        · exact Or.inl ⟨term, hmem, hor⟩
        · exact Or.inr hor

/-- Witness for C4: a concrete out-of-category candidate with fused score
0.9 against query `"tofu"` passes the filter, and the theorem's guarantees
hold at it. -/
theorem applyQualityFilters_guarantees_witness :
    0.05 ≤ ({ product := { category := "b".toList, title := "tofu".toList, price := 1,
                           volume := [], url := [] },
              score := 0.9, tier := "tier1".toList,
              relevanceBreakdown := { tfidf := 0, fuzzy := 0, semantic := 0, exact := 0,
                                      attr := 0, category := 0, final := 0.9 } } : SearchResult).score ∧
    (0 < (["a".toList] : List Str).length →
      ¬(["a".toList] : List Str).contains
          ({ product := { category := "b".toList, title := "tofu".toList, price := 1,
                          volume := [], url := [] },
             score := 0.9, tier := "tier1".toList,
             relevanceBreakdown := { tfidf := 0, fuzzy := 0, semantic := 0, exact := 0,
                                     attr := 0, category := 0, final := 0.9 } } : SearchResult).product.category →
      0.8 ≤ ({ product := { category := "b".toList, title := "tofu".toList, price := 1,
                            volume := [], url := [] },
               score := 0.9, tier := "tier1".toList,
               relevanceBreakdown := { tfidf := 0, fuzzy := 0, semantic := 0, exact := 0,
                                       attr := 0, category := 0, final := 0.9 } } : SearchResult).score) ∧
    ((∃ term ∈ tokenize (toLowerStr "tofu".toList),
        containsSeg term (toLowerStr (getProductText
          ({ product := { category := "b".toList, title := "tofu".toList, price := 1,
                          volume := [], url := [] },
             score := 0.9, tier := "tier1".toList,
             relevanceBreakdown := { tfidf := 0, fuzzy := 0, semantic := 0, exact := 0,
                                     attr := 0, category := 0, final := 0.9 } } : SearchResult).product)) = true) ∨
      0.3 < ({ product := { category := "b".toList, title := "tofu".toList, price := 1,
                            volume := [], url := [] },
               score := 0.9, tier := "tier1".toList,
               relevanceBreakdown := { tfidf := 0, fuzzy := 0, semantic := 0, exact := 0,
                                       attr := 0, category := 0, final := 0.9 } } : SearchResult).relevanceBreakdown.fuzzy) := by
  apply applyQualityFilters_guarantees
    [{ product := { category := "b".toList, title := "tofu".toList, price := 1,
                    volume := [], url := [] },
       score := 0.9, tier := "tier1".toList,
       relevanceBreakdown := { tfidf := 0, fuzzy := 0, semantic := 0, exact := 0,
                               attr := 0, category := 0, final := 0.9 } }]
    "tofu".toList ["a".toList]
  norm_num +decide [applyQualityFilters, tokenize, splitOnSpace, isWordChar, toLowerStr,
    lowerChar, containsSeg, getProductText]

/-- Counterexample for C4 as stated: an out-of-category candidate whose
fused score is exactly 0.8 — not strictly above the override threshold —
is still returned by the quality filter, because the source drops only
out-of-category scores strictly below 0.8. -/
theorem qualityFilter_boundary_kept :
    applyQualityFilters
        [{ product := { category := "b".toList, title := "tofu".toList, price := 1,
                        volume := [], url := [] },
           score := 0.8, tier := "tier1".toList,
           relevanceBreakdown := { tfidf := 0, fuzzy := 0, semantic := 0, exact := 0,
                                   attr := 0, category := 0, final := 0.8 } }]
        "tofu".toList ["a".toList] =
      [{ product := { category := "b".toList, title := "tofu".toList, price := 1,
                      volume := [], url := [] },
         score := 0.8, tier := "tier1".toList,
         relevanceBreakdown := { tfidf := 0, fuzzy := 0, semantic := 0, exact := 0,
                                 attr := 0, category := 0, final := 0.8 } }] ∧
    (["a".toList] : List Str).contains ("b".toList : Str) = false ∧
    ¬((0.8 : ℚ) < 0.8) := by
  refine ⟨?_, by decide, by norm_num⟩
  norm_num +decide [applyQualityFilters, tokenize, splitOnSpace, isWordChar, toLowerStr,
    lowerChar, containsSeg, getProductText]
